import Mathlib

/-!
# SafeZone cow tracker: geofence evaluation and alarm escalation

A shallow embedding of the zone / alarm core of `src/main.cpp`
(`updateZoneData`, `updateZoneStatus`, `startAlarm`, `stopAlarm`,
`handleAlarmSystem`, `calculateDistance`).

* The C++ `double` coordinates are a type parameter `α` carrying a decidable
  linear order and a zero, so the same definitions run on `ℤ` or `ℚ` and are
  read on `ℝ` with the haversine formula (NaN, which the JSON decoder does not
  produce, is outside the model).  `calculateDistance` is handed to the zone
  evaluation as the argument `dist`.
* The globals of the firmware are one record `State`; every function takes the
  state and returns the new state together with the list of messages it sent,
  in the order of the calls to `sendZoneChange` / `sendAlarm`.
* `millis()` is an argument `now`; `unsigned long` is 32 bits wide on the
  ESP32, so the subtraction in `handleAlarmSystem` is taken modulo `2 ^ 32`.
-/

namespace SafeZone

/-! ## Data model -/

/-- Record `struct Zone` of the source: name, centre and radius in metres. -/
structure Zone (α : Type) where
  name : String
  centerLat : α
  centerLng : α
  radius : α

/-- Array `Zone zones[3]` of the source. -/
abbrev Registry (α : Type) := Fin 3 → Zone α

/-- The messages handed to the transport.  `zoneChange` is one call of
`sendZoneChange()` (carrying the globals `previousZone`, `currentZone` read by
it), `alarm` is one call of `sendAlarm(alarmType, level, message)`.  The device
id, the coordinates and the timestamp copied into the JSON document are not
modelled. -/
inductive Event where
  | zoneChange (oldZone newZone : String)
  | alarm (alarmType : String) (level : Int) (message : String)
  deriving DecidableEq, Repr

/-- The globals read or written by the zone and alarm functions. -/
structure State (α : Type) where
  currentLat : α
  currentLng : α
  zones : Registry α
  currentZone : String
  previousZone : String
  insideFence : Bool
  alarmActive : Bool
  alarmStartTime : Nat
  alarmLevel : Int

/-- Timing constant `ALARM_LEVEL1_DELAY` (milliseconds). -/
def ALARM_LEVEL1_DELAY : Nat := 5000
/-- Timing constant `ALARM_LEVEL2_DELAY` (milliseconds). -/
def ALARM_LEVEL2_DELAY : Nat := 15000
/-- Timing constant `ALARM_LEVEL3_DELAY` (milliseconds). -/
def ALARM_LEVEL3_DELAY : Nat := 50000

/-- Subtraction of two `unsigned long` values (32 bits on the ESP32). -/
def ulongSub (a b : Nat) : Nat := (a % 4294967296 + 4294967296 - b % 4294967296) % 4294967296

section Core

variable {α : Type} [LinearOrder α] [Zero α]

/-- The initial values of the globals: three zones centred on `(0,0)` with the
radius `r50` (the literal `50.0` of the source), no zone, no alarm. -/
def initState (r50 : α) : State α where
  currentLat := 0
  currentLng := 0
  zones := fun i =>
    match i with
    | 0 => ⟨"zone1", 0, 0, r50⟩
    | 1 => ⟨"zone2", 0, 0, r50⟩
    | 2 => ⟨"zone3", 0, 0, r50⟩
  currentZone := "none"
  previousZone := "none"
  insideFence := false
  alarmActive := false
  alarmStartTime := 0
  alarmLevel := 0

/-! ## updateZoneData -/

/-- The loop `for (i = 0; i < zonesArray.size() && i < 3; i++)` of
`updateZoneData`, run over the remaining indices: slot `i` is overwritten by
element `i` of the array, and the loop ends at the first index the array does
not have. -/
def updateZoneLoop (zonesArray : List (Zone α)) : List (Fin 3) → Registry α → Registry α
  | [], zones => zones
  | i :: rest, zones =>
    match zonesArray[i.val]? with
    | some zone => updateZoneLoop zonesArray rest (Function.update zones i zone)
    | none => zones

/-- Function `updateZoneData`: `none` is a `fenceData` object without the key
`"zones"`, `some zonesArray` the decoded array. -/
def updateZoneData (s : State α) (fenceZones : Option (List (Zone α))) : State α :=
  match fenceZones with
  | none => s
  | some zonesArray => { s with zones := updateZoneLoop zonesArray [0, 1, 2] s.zones }

/-! ## readGPS -/

/-- The part of `readGPS` that matters here: a valid location of the receiver
is copied into `currentLat`, `currentLng`. -/
def readGPS (s : State α) (lat lng : α) : State α :=
  { s with currentLat := lat, currentLng := lng }

/-! ## Alarm -/

/-- Function `startAlarm`. -/
def startAlarm (s : State α) (now : Nat) : State α × List Event :=
  if !s.alarmActive then
    ({ s with alarmActive := true, alarmStartTime := now, alarmLevel := 0 },
      [Event.alarm "breach" 1 "Cow has left all safe zones"])
  else (s, [])

/-- Function `stopAlarm`. -/
def stopAlarm (s : State α) : State α × List Event :=
  if s.alarmActive then
    ({ s with alarmActive := false, alarmLevel := 0 },
      [Event.alarm "return" 0 "Cow has returned to safe zone"])
  else (s, [])

/-- Function `handleAlarmSystem`, with `now` the value of `millis()`. -/
def handleAlarmSystem (s : State α) (now : Nat) : State α × List Event :=
  if !s.alarmActive then (s, [])
  else
    let timeOutside := ulongSub now s.alarmStartTime
    let (s1, e1) :=
      if s.alarmLevel = 0 ∧ timeOutside ≥ ALARM_LEVEL1_DELAY then
        ({ s with alarmLevel := 1 }, [Event.alarm "level1" 1 "Cow outside for 5 seconds"])
      else (s, [])
    let (s2, e2) :=
      if s1.alarmLevel = 1 ∧ timeOutside ≥ ALARM_LEVEL2_DELAY then
        ({ s1 with alarmLevel := 2 }, [Event.alarm "level2" 2 "Cow outside for 15 seconds"])
      else (s1, [])
    let (s3, e3) :=
      if s2.alarmLevel = 2 ∧ timeOutside ≥ ALARM_LEVEL3_DELAY then
        ({ s2 with alarmLevel := 3 },
          [Event.alarm "level3" 3 "Cow outside for 50 seconds - CRITICAL"])
      else (s2, [])
    (s3, e1 ++ e2 ++ e3)

/-! ## updateZoneStatus -/

/-- The loop `for (int i = 0; i < 3; i++)` of `updateZoneStatus`, run over the
remaining indices; the pair is the locals/globals `(newZone, insideFence)` it
writes.  The branch that returns at once is the `break`. -/
def zoneLoop (dist : α → α → α → α → α) (lat lng : α) (zones : Registry α) :
    List (Fin 3) → String × Bool → String × Bool
  | [], acc => acc
  | i :: rest, acc =>
    if (zones i).centerLat ≠ 0 ∧ (zones i).centerLng ≠ 0 then
      if dist lat lng (zones i).centerLat (zones i).centerLng ≤ (zones i).radius then
        ((zones i).name, true)
      else zoneLoop dist lat lng zones rest acc
    else zoneLoop dist lat lng zones rest acc

/-- The value of the local `newZone` after the loop of `updateZoneStatus`. -/
def newZone (dist : α → α → α → α → α) (s : State α) : String :=
  (zoneLoop dist s.currentLat s.currentLng s.zones [0, 1, 2] ("none", s.insideFence)).1

/-- Function `updateZoneStatus`, with `dist` for `calculateDistance` and `now`
for the value of `millis()` read by `startAlarm`. -/
def updateZoneStatus (dist : α → α → α → α → α) (s : State α) (now : Nat) :
    State α × List Event :=
  if s.currentLat = 0 ∧ s.currentLng = 0 then (s, [])
  else
    let r := zoneLoop dist s.currentLat s.currentLng s.zones [0, 1, 2] ("none", s.insideFence)
    let s0 := { s with insideFence := r.2 }
    let (s4, evs) :=
      if r.1 ≠ s0.currentZone then
        let s1 := { s0 with previousZone := s0.currentZone, currentZone := r.1 }
        let e1 := [Event.zoneChange s1.previousZone s1.currentZone]
        let (s2, e2) :=
          if s1.currentZone = "none" ∧ s1.previousZone ≠ "none" then startAlarm s1 now
          else (s1, [])
        let (s3, e3) :=
          if s2.currentZone ≠ "none" ∧ s2.previousZone = "none" then stopAlarm s2
          else (s2, [])
        (s3, e1 ++ e2 ++ e3)
      else (s0, [])
    ({ s4 with insideFence := decide (s4.currentZone ≠ "none") }, evs)

/-! ## Runs of the firmware -/

/-- One step of the firmware that touches the zone or alarm globals. -/
inductive Action (α : Type) where
  | gps (lat lng : α)
  | zoneTick (now : Nat)
  | alarmTick (now : Nat)
  | config (fenceZones : Option (List (Zone α)))

/-- The effect of one step: new state and messages sent. -/
def step (dist : α → α → α → α → α) (s : State α) : Action α → State α × List Event
  | .gps lat lng => (readGPS s lat lng, [])
  | .zoneTick now => updateZoneStatus dist s now
  | .alarmTick now => handleAlarmSystem s now
  | .config fenceZones => (updateZoneData s fenceZones, [])

/-- The state after a list of steps. -/
def run (dist : α → α → α → α → α) (s : State α) : List (Action α) → State α
  | [] => s
  | a :: rest => run dist (step dist s a).1 rest

/-- The states the firmware reaches from its initial globals. -/
inductive Reachable (dist : α → α → α → α → α) (r50 : α) : State α → Prop where
  | init : Reachable dist r50 (initState r50)
  | next (s : State α) (a : Action α) :
      Reachable dist r50 s → Reachable dist r50 (step dist s a).1

end Core

section SpecSide

variable {α : Type} [LinearOrder α] [Zero α]

/-- Containment in the words of the specification: the slot is not the
disabled sentinel (centre `(0,0)`) and the distance from the position to the
centre is at most the radius. -/
def specContains (dist : α → α → α → α → α) (lat lng : α) (z : Zone α) : Prop :=
  ¬ (z.centerLat = 0 ∧ z.centerLng = 0) ∧ dist lat lng z.centerLat z.centerLng ≤ z.radius

instance (dist : α → α → α → α → α) (lat lng : α) (z : Zone α) :
    Decidable (specContains dist lat lng z) := by
  unfold specContains; infer_instance

/-- Activation of the alarm by a tick, in the words of the specification: the
alarm was inactive, `alarmActive` becomes true, `alarmLevel` is 0,
`alarmStartTime` is the current time, and a `"breach"` alarm of level 1 is
among the messages sent. -/
def alarmActivated (s s' : State α) (evs : List Event) (now : Nat) : Prop :=
  s.alarmActive = false ∧ s'.alarmActive = true ∧ s'.alarmLevel = 0 ∧
    s'.alarmStartTime = now ∧ ∃ m, Event.alarm "breach" 1 m ∈ evs

/-- Deactivation of the alarm by a tick, in the words of the specification:
afterwards `alarmActive` is false and `alarmLevel` is 0, and a `"return"` alarm
of level 0 is among the messages sent. -/
def alarmDeactivated (s' : State α) (evs : List Event) : Prop :=
  s'.alarmActive = false ∧ s'.alarmLevel = 0 ∧ ∃ m, Event.alarm "return" 0 m ∈ evs

/-- The times of the `handleAlarmSystem` ticks in a list of steps, in order. -/
def alarmTimes : List (Action α) → List Nat
  | [] => []
  | Action.alarmTick now :: rest => now :: alarmTimes rest
  | _ :: rest => alarmTimes rest

/-- Invariant of the reachable states used in the proofs: an active alarm means
the animal is recorded outside every zone, an inactive alarm has level 0, and
the level is one of 0, 1, 2, 3. -/
def AlarmInv (s : State α) : Prop :=
  (s.alarmActive = true → s.currentZone = "none") ∧
  (s.alarmActive = false → s.alarmLevel = 0) ∧
  (s.alarmLevel = 0 ∨ s.alarmLevel = 1 ∨ s.alarmLevel = 2 ∨ s.alarmLevel = 3)

/-- Invariant of an activation used in the proofs: the level stored after a
tick with `m` milliseconds elapsed is the number of thresholds that `m` has
reached. -/
def levelTracks (lvl : Int) (m : Nat) : Prop :=
  (lvl = 0 ∧ m < 5000) ∨ (lvl = 1 ∧ 5000 ≤ m ∧ m < 15000) ∨
    (lvl = 2 ∧ 15000 ≤ m ∧ m < 50000) ∨ (lvl = 3 ∧ 50000 ≤ m)

end SpecSide

/-- Whether a message is a zone-change message. -/
def Event.isZoneChange : Event → Bool
  | .zoneChange _ _ => true
  | .alarm _ _ _ => false

/-- Whether a message is an alarm message. -/
def Event.isAlarm : Event → Bool
  | .zoneChange _ _ => false
  | .alarm _ _ _ => true

/-! ## calculateDistance over the real numbers -/

noncomputable section

/-- The C library function `atan2(y, x)` on real numbers: the angle in
`(-π, π]` of the point `(x, y)`, and `0` at the origin. -/
def atan2 (y x : ℝ) : ℝ := Complex.arg ⟨x, y⟩

/-- Modelled from the spec: the macro `PI` comes from the Arduino core, which
is not under `src/`; the formula is read over the real numbers, with the
angles in radians, so `PI` is the number π. -/
def PI : ℝ := Real.pi

/-- Function `calculateDistance` (haversine), read over the real numbers. -/
def calculateDistance (lat1 lng1 lat2 lng2 : ℝ) : ℝ :=
  let R : ℝ := 6371000
  let dLat := (lat2 - lat1) * PI / 180.0
  let dLng := (lng2 - lng1) * PI / 180.0
  let a := Real.sin (dLat / 2) * Real.sin (dLat / 2) +
    Real.cos (lat1 * PI / 180.0) * Real.cos (lat2 * PI / 180.0) *
    Real.sin (dLng / 2) * Real.sin (dLng / 2)
  let c := 2 * atan2 (Real.sqrt a) (Real.sqrt (1 - a))
  R * c

end

/-! ## Concrete registries and positions -/

/-- A stand-in distance on integer coordinates (sum of the coordinate
differences), used to run the definitions on concrete data. -/
def gridDist (lat1 lng1 lat2 lng2 : ℤ) : ℤ := |lat2 - lat1| + |lng2 - lng1|

/-- A state on integer coordinates: slot 0 disabled, slots 1 and 2 overlapping
zones around `(10, 20)`, the animal at `(10, 20)` and recorded in `"zone2"`. -/
def overlapState : State ℤ where
  currentLat := 10
  currentLng := 20
  zones := fun i =>
    match i with
    | 0 => ⟨"zone1", 0, 0, 50⟩
    | 1 => ⟨"zone2", 10, 20, 50⟩
    | 2 => ⟨"zone3", 10, 20, 100⟩
  currentZone := "zone2"
  previousZone := "none"
  insideFence := true
  alarmActive := false
  alarmStartTime := 0
  alarmLevel := 0

/-- The state `overlapState` after the receiver lost its fix: position `(0, 0)`. -/
def noFixState : State ℤ := readGPS overlapState 0 0

/-- The state `overlapState` after the animal moved to `(10, 500)`, outside
every zone. -/
def awayState : State ℤ := readGPS overlapState 10 500

/-- Steps from startup: the zone `{zone1, 10, 20, 50}` is configured, the
animal is seen at its centre and recorded in it, then seen at `(10, 500)`. -/
def breachSetup : List (Action ℤ) :=
  [Action.config (some [⟨"zone1", 10, 20, 50⟩]), Action.gps 10 20, Action.zoneTick 1000,
    Action.gps 10 500]

/-- The state after `breachSetup`: recorded in `"zone1"`, position outside. -/
def leavingState : State ℤ := run gridDist (initState 50) breachSetup

/-- The state after `breachSetup` and the tick at time 2000 that raises the alarm. -/
def outsideState : State ℤ :=
  run gridDist (initState 50) (breachSetup ++ [Action.zoneTick 2000])

/-- The state `outsideState` after the animal is seen at `(10, 20)` again. -/
def returningState : State ℤ :=
  run gridDist (initState 50) (breachSetup ++ [Action.zoneTick 2000, Action.gps 10 20])

/-- A state right after an activation at time 2000. -/
def escalationStart : State ℤ :=
  { overlapState with
    currentLat := 10, currentLng := 500, currentZone := "none", previousZone := "zone2",
    insideFence := false, alarmActive := true, alarmStartTime := 2000, alarmLevel := 0 }

/-- Steps after the activation: alarm ticks at 3000 and 8000 with a position
update in between. -/
def escalationRun : List (Action ℤ) :=
  [Action.alarmTick 3000, Action.gps 10 600, Action.alarmTick 8000]

noncomputable section

/-- The state after the configuration message with the single zone
`{zone1, centerLat = 0, centerLng = 20, radius = 50}` (a zone on the equator)
and a fix at `(0, 20)`, its centre. -/
def equatorState : State ℝ :=
  run calculateDistance (initState 50)
    [Action.config (some [⟨"zone1", 0, 20, 50⟩]), Action.gps 0 20]

/-- The state after the configuration message with the single zone
`{zone1, centerLat = 10, centerLng = 20, radius = 50}` and a first fix at
`(10, 20)`, its centre. -/
def firstFixState : State ℝ :=
  run calculateDistance (initState 50)
    [Action.config (some [⟨"zone1", 10, 20, 50⟩]), Action.gps 10 20]

end

/-! ## Theorems -/

section Proofs

variable {α : Type} [LinearOrder α] [Zero α]

/-- One round of the loop of `updateZoneStatus` at a slot that passes the
guard and the distance test: the loop breaks with that slot's name. -/
theorem zoneLoop_cons_hit (dist : α → α → α → α → α) (lat lng : α) (zones : Registry α)
    (i : Fin 3) (rest : List (Fin 3)) (acc : String × Bool)
    (h : ((zones i).centerLat ≠ 0 ∧ (zones i).centerLng ≠ 0) ∧
      dist lat lng (zones i).centerLat (zones i).centerLng ≤ (zones i).radius) :
    zoneLoop dist lat lng zones (i :: rest) acc = ((zones i).name, true) := by
  simp only [zoneLoop]
  rw [if_pos h.1, if_pos h.2]

/-- One round of the loop of `updateZoneStatus` at a slot that fails the guard
or the distance test: the loop goes on with the next index. -/
theorem zoneLoop_cons_miss (dist : α → α → α → α → α) (lat lng : α) (zones : Registry α)
    (i : Fin 3) (rest : List (Fin 3)) (acc : String × Bool)
    (h : ¬ (((zones i).centerLat ≠ 0 ∧ (zones i).centerLng ≠ 0) ∧
      dist lat lng (zones i).centerLat (zones i).centerLng ≤ (zones i).radius)) :
    zoneLoop dist lat lng zones (i :: rest) acc = zoneLoop dist lat lng zones rest acc := by
  simp only [zoneLoop]
  by_cases hg : (zones i).centerLat ≠ 0 ∧ (zones i).centerLng ≠ 0
  · rw [if_pos hg, if_neg (fun hd => h ⟨hg, hd⟩)]
  · rw [if_neg hg]

/-- The loop of `updateZoneStatus` with its own guard: `newZone` is the name
of the first slot with both centre coordinates non-zero and distance at most
the radius, and `"none"` without such a slot. -/
theorem newZone_code_first (dist : α → α → α → α → α) (s : State α) :
    (∀ i : Fin 3, (((s.zones i).centerLat ≠ 0 ∧ (s.zones i).centerLng ≠ 0) ∧
        dist s.currentLat s.currentLng (s.zones i).centerLat (s.zones i).centerLng ≤
          (s.zones i).radius) →
      (∀ j : Fin 3, j < i → ¬ (((s.zones j).centerLat ≠ 0 ∧ (s.zones j).centerLng ≠ 0) ∧
        dist s.currentLat s.currentLng (s.zones j).centerLat (s.zones j).centerLng ≤
          (s.zones j).radius)) →
      newZone dist s = (s.zones i).name) ∧
    ((∀ i : Fin 3, ¬ (((s.zones i).centerLat ≠ 0 ∧ (s.zones i).centerLng ≠ 0) ∧
        dist s.currentLat s.currentLng (s.zones i).centerLat (s.zones i).centerLng ≤
          (s.zones i).radius)) →
      newZone dist s = "none") := by
  constructor
  · intro i
    obtain rfl | rfl | rfl : i = 0 ∨ i = 1 ∨ i = 2 := by revert i; decide
    all_goals intro hi hj; unfold newZone
    · rw [zoneLoop_cons_hit _ _ _ _ _ _ _ hi]
    · rw [zoneLoop_cons_miss _ _ _ _ _ _ _ (hj 0 (by decide)),
        zoneLoop_cons_hit _ _ _ _ _ _ _ hi]
    · rw [zoneLoop_cons_miss _ _ _ _ _ _ _ (hj 0 (by decide)),
        zoneLoop_cons_miss _ _ _ _ _ _ _ (hj 1 (by decide)),
        zoneLoop_cons_hit _ _ _ _ _ _ _ hi]
  · intro h
    unfold newZone
    rw [zoneLoop_cons_miss _ _ _ _ _ _ _ (h 0), zoneLoop_cons_miss _ _ _ _ _ _ _ (h 1),
      zoneLoop_cons_miss _ _ _ _ _ _ _ (h 2)]
    rfl

/-- Without a fix `updateZoneStatus` returns at once. -/
theorem updateZoneStatus_skip (dist : α → α → α → α → α) (s : State α) (now : Nat)
    (h : s.currentLat = 0 ∧ s.currentLng = 0) :
    updateZoneStatus dist s now = (s, []) := by
  simp [updateZoneStatus, h]

/-- Claim C6: with the no-fix sentinel as current position (`currentLat = 0`
and `currentLng = 0`) `updateZoneStatus` returns the state it was given and
sends nothing: `currentZone`, `previousZone`, `insideFence`, `alarmActive`,
`alarmLevel` and `alarmStartTime` keep their values, and the zone is not
replaced by `"none"`. -/
theorem updateZoneStatus_no_fix (dist : α → α → α → α → α) (s : State α) (now : Nat)
    (h : s.currentLat = 0 ∧ s.currentLng = 0) :
    updateZoneStatus dist s now = (s, []) := by
  simp [updateZoneStatus, h]

/-- The effect of `updateZoneStatus` with a valid fix, by the shape of the
transition: no change, some zone to `"none"`, `"none"` to some zone, or zone to
zone; in the second and third case, by the guard of `startAlarm` / `stopAlarm`. -/
theorem updateZoneStatus_cases (dist : α → α → α → α → α) (s : State α) (now : Nat)
    (hfix : ¬ (s.currentLat = 0 ∧ s.currentLng = 0)) :
    updateZoneStatus dist s now =
      if newZone dist s = s.currentZone then
        ({ s with insideFence := decide (s.currentZone ≠ "none") }, [])
      else if newZone dist s = "none" then
        if s.alarmActive then
          ({ s with previousZone := s.currentZone, currentZone := "none", insideFence := false },
            [Event.zoneChange s.currentZone "none"])
        else
          ({ s with previousZone := s.currentZone, currentZone := "none", insideFence := false,
                    alarmActive := true, alarmStartTime := now, alarmLevel := 0 },
            [Event.zoneChange s.currentZone "none",
              Event.alarm "breach" 1 "Cow has left all safe zones"])
      else if s.currentZone = "none" then
        if s.alarmActive then
          ({ s with previousZone := "none", currentZone := newZone dist s, insideFence := true,
                    alarmActive := false, alarmLevel := 0 },
            [Event.zoneChange "none" (newZone dist s),
              Event.alarm "return" 0 "Cow has returned to safe zone"])
        else
          ({ s with previousZone := "none", currentZone := newZone dist s, insideFence := true },
            [Event.zoneChange "none" (newZone dist s)])
      else
        ({ s with previousZone := s.currentZone, currentZone := newZone dist s,
                  insideFence := true },
          [Event.zoneChange s.currentZone (newZone dist s)]) := by
  unfold newZone updateZoneStatus startAlarm stopAlarm
  rw [if_neg hfix]
  generalize (zoneLoop dist s.currentLat s.currentLng s.zones [0, 1, 2]
    ("none", s.insideFence)) = r
  obtain ⟨nz, ins⟩ := r
  by_cases h1 : nz = s.currentZone
  · simp [h1]
  · by_cases h2 : nz = "none"
    · by_cases h3 : s.currentZone = "none"
      · exact absurd (h2.trans h3.symm) h1
      · cases h4 : s.alarmActive <;> simp [h1, h2, h3, h4, Ne.symm h3]
    · by_cases h3 : s.currentZone = "none"
      · cases h4 : s.alarmActive <;> simp [h1, h2, h3, h4]
      · cases h4 : s.alarmActive <;> simp [h1, h2, h3, h4]

/-- Claim C5: in a tick of `updateZoneStatus` with a valid fix, a zone-change
message is sent exactly when the evaluated `newZone` differs from the stored
`currentZone`.  When it differs, `previousZone` becomes the old `currentZone`,
`currentZone` becomes `newZone` and the zone-change messages of the tick are
the single message carrying (old, new); when it is equal, both fields keep
their values and nothing is sent.  In both cases `insideFence` afterwards is
`currentZone != "none"`. -/
theorem updateZoneStatus_transition (dist : α → α → α → α → α) (s : State α) (now : Nat)
    (hfix : ¬ (s.currentLat = 0 ∧ s.currentLng = 0)) :
    ((∃ o n, Event.zoneChange o n ∈ (updateZoneStatus dist s now).2) ↔
        newZone dist s ≠ s.currentZone) ∧
    (newZone dist s ≠ s.currentZone →
      (updateZoneStatus dist s now).1.previousZone = s.currentZone ∧
      (updateZoneStatus dist s now).1.currentZone = newZone dist s ∧
      (updateZoneStatus dist s now).2.filter Event.isZoneChange =
        [Event.zoneChange s.currentZone (newZone dist s)]) ∧
    (newZone dist s = s.currentZone →
      (updateZoneStatus dist s now).1.currentZone = s.currentZone ∧
      (updateZoneStatus dist s now).1.previousZone = s.previousZone ∧
      (updateZoneStatus dist s now).2 = []) ∧
    (updateZoneStatus dist s now).1.insideFence =
      decide ((updateZoneStatus dist s now).1.currentZone ≠ "none") := by
  rw [updateZoneStatus_cases dist s now hfix]
  by_cases h1 : newZone dist s = s.currentZone
  · simp [h1]
  · by_cases h2 : newZone dist s = "none"
    · have h1n : ¬ "none" = s.currentZone := h2 ▸ h1
      cases h4 : s.alarmActive <;> simp [h1n, h2, h4, Event.isZoneChange]
    · by_cases h3 : s.currentZone = "none"
      · cases h4 : s.alarmActive <;> simp [h1, h2, h3, h4, Event.isZoneChange]
      · simp [h1, h2, h3, Event.isZoneChange]

/-- Claim C1: for a valid position and a registry in which every centre is
either `(0,0)` or has both coordinates non-zero, the `newZone` computed by the
loop of `updateZoneStatus` is the name of the first zone in registry order whose
centre is not `(0,0)` and whose distance to the position is at most its radius
(whatever later zones do), and it is `"none"` when there is no such zone. -/
theorem newZone_first_match (dist : α → α → α → α → α) (s : State α)
    (_hfix : ¬ (s.currentLat = 0 ∧ s.currentLng = 0))
    (hreg : ∀ i : Fin 3, ((s.zones i).centerLat = 0 ∧ (s.zones i).centerLng = 0) ∨
      ((s.zones i).centerLat ≠ 0 ∧ (s.zones i).centerLng ≠ 0)) :
    (∀ i : Fin 3, specContains dist s.currentLat s.currentLng (s.zones i) →
      (∀ j : Fin 3, j < i → ¬ specContains dist s.currentLat s.currentLng (s.zones j)) →
      newZone dist s = (s.zones i).name) ∧
    ((∀ i : Fin 3, ¬ specContains dist s.currentLat s.currentLng (s.zones i)) →
      newZone dist s = "none") := by
  have key : ∀ i : Fin 3, specContains dist s.currentLat s.currentLng (s.zones i) ↔
      (((s.zones i).centerLat ≠ 0 ∧ (s.zones i).centerLng ≠ 0) ∧
        dist s.currentLat s.currentLng (s.zones i).centerLat (s.zones i).centerLng ≤
          (s.zones i).radius) := by
    intro i
    unfold specContains
    rcases hreg i with h | h
    · simp [h.1, h.2]
    · simp [h.1, h.2]
  simp only [key]
  exact newZone_code_first dist s

/-- Claim C1, run on `overlapState`: slot 0 is disabled, slots 1 and 2 both
contain the position, and `newZone` is the name of slot 1. -/
theorem newZone_first_match_witness :
    ¬ (overlapState.currentLat = 0 ∧ overlapState.currentLng = 0) ∧
    (∀ i : Fin 3, ((overlapState.zones i).centerLat = 0 ∧ (overlapState.zones i).centerLng = 0) ∨
      ((overlapState.zones i).centerLat ≠ 0 ∧ (overlapState.zones i).centerLng ≠ 0)) ∧
    specContains gridDist 10 20 (overlapState.zones 2) ∧
    newZone gridDist overlapState = "zone2" :=
  ⟨by decide, by decide, by decide,
    (newZone_first_match gridDist overlapState (by decide) (by decide)).1 1
      (by decide) (by decide)⟩

/-- Claim C6, run on `noFixState`: the tick returns the same state, still in
`"zone2"`, and sends nothing. -/
theorem updateZoneStatus_no_fix_witness :
    (noFixState.currentLat = 0 ∧ noFixState.currentLng = 0) ∧
    updateZoneStatus gridDist noFixState 7 = (noFixState, []) ∧
    (updateZoneStatus gridDist noFixState 7).1.currentZone = "zone2" :=
  ⟨by decide, updateZoneStatus_no_fix gridDist noFixState 7 (by decide),
    by rw [updateZoneStatus_no_fix gridDist noFixState 7 (by decide)]; rfl⟩

/-- Claim C5, run on `awayState`: the evaluated zone is `"none"`, the stored
one `"zone2"`, and the tick records the transition. -/
theorem updateZoneStatus_transition_witness :
    ¬ (awayState.currentLat = 0 ∧ awayState.currentLng = 0) ∧
    newZone gridDist awayState ≠ awayState.currentZone ∧
    (updateZoneStatus gridDist awayState 7).1.previousZone = "zone2" ∧
    (updateZoneStatus gridDist awayState 7).1.currentZone = newZone gridDist awayState ∧
    (updateZoneStatus gridDist awayState 7).2.filter Event.isZoneChange =
      [Event.zoneChange "zone2" (newZone gridDist awayState)] :=
  have hne : newZone gridDist awayState ≠ awayState.currentZone := by
    decide
  ⟨by decide, hne,
    ((updateZoneStatus_transition gridDist awayState 7 (by decide)).2.1 hne)⟩

end Proofs

/-- Claim C9: `updateZoneData` with a zone array overwrites slot `i` by entry
`i` for every `i` below the array length and below 3, leaves every other slot
at its prior value, and ignores the entries at positions 3 and above (two
arrays with the same first three entries give the same state). -/
theorem updateZoneData_slots {α : Type} (s : State α) (zonesArray : List (Zone α)) :
    (∀ (i : Fin 3) (h : i.val < zonesArray.length),
      (updateZoneData s (some zonesArray)).zones i = zonesArray.get ⟨i.val, h⟩) ∧
    (∀ i : Fin 3, zonesArray.length ≤ i.val →
      (updateZoneData s (some zonesArray)).zones i = s.zones i) ∧
    (∀ other : List (Zone α), other.take 3 = zonesArray.take 3 →
      updateZoneData s (some other) = updateZoneData s (some zonesArray)) := by
  have key : ∀ (arr : List (Zone α)) (i : Fin 3),
      updateZoneLoop arr [0, 1, 2] s.zones i = (arr[i.val]?).getD (s.zones i) := by
    intro arr i
    obtain rfl | rfl | rfl : i = 0 ∨ i = 1 ∨ i = 2 := by revert i; decide
    all_goals
      rcases arr with _ | ⟨a, _ | ⟨b, _ | ⟨c, rest⟩⟩⟩ <;>
        simp [updateZoneLoop, Function.update]
  refine ⟨?_, ?_, ?_⟩
  · intro i h
    simp only [updateZoneData, key]
    simp [List.getElem?_eq_getElem h]
  · intro i h
    simp only [updateZoneData, key]
    simp [List.getElem?_eq_none h]
  · intro other h
    have e : updateZoneLoop other [0, 1, 2] s.zones =
        updateZoneLoop zonesArray [0, 1, 2] s.zones := by
      funext i
      rw [key, key]
      have h1 : other[i.val]? = (other.take 3)[i.val]? := by
        rw [List.getElem?_take_of_lt i.isLt]
      have h2 : zonesArray[i.val]? = (zonesArray.take 3)[i.val]? := by
        rw [List.getElem?_take_of_lt i.isLt]
      rw [h1, h2, h]
    simp only [updateZoneData, e]

/-! ## The haversine distance -/

/-- The angle of the point `(cos x, sin x)` is `x`, for `x` in `(-π, π]`. -/
theorem atan2_sin_cos (x : ℝ) (h1 : -Real.pi < x) (h2 : x ≤ Real.pi) :
    atan2 (Real.sin x) (Real.cos x) = x := by
  have h := Complex.arg_cos_add_sin_mul_I (θ := x) ⟨h1, h2⟩
  have e : (⟨Real.cos x, Real.sin x⟩ : ℂ) = Complex.cos x + Complex.sin x * Complex.I := by
    apply Complex.ext <;> simp [Complex.cos_ofReal_re, Complex.sin_ofReal_re]
  unfold atan2
  rw [e]
  exact h

/-- The distance from a point to itself is `0`. -/
theorem calculateDistance_self (lat lng : ℝ) : calculateDistance lat lng lat lng = 0 := by
  have e : (⟨1, 0⟩ : ℂ) = 1 := by apply Complex.ext <;> simp
  simp [calculateDistance, atan2, e]

/-- One degree of longitude on the equator: the haversine formula gives
`R * π / 180` with `R = 6371000`. -/
theorem equator_degree_value :
    calculateDistance 0 0 0 1 = 6371000 * Real.pi / 180 := by
  have hpos := Real.pi_pos
  have hx1 : (0 : ℝ) ≤ Real.pi / 360 := by positivity
  have hx2 : Real.pi / 360 ≤ Real.pi / 2 := by linarith
  have hs : 0 ≤ Real.sin (Real.pi / 360) :=
    Real.sin_nonneg_of_nonneg_of_le_pi hx1 (by linarith)
  have hc : 0 ≤ Real.cos (Real.pi / 360) :=
    Real.cos_nonneg_of_neg_pi_div_two_le_of_le (by linarith) hx2
  have ha : Real.sqrt (Real.sin (Real.pi / 360) * Real.sin (Real.pi / 360)) =
      Real.sin (Real.pi / 360) := Real.sqrt_mul_self hs
  have hb : Real.sqrt (1 - Real.sin (Real.pi / 360) * Real.sin (Real.pi / 360)) =
      Real.cos (Real.pi / 360) := by
    have hsq : 1 - Real.sin (Real.pi / 360) * Real.sin (Real.pi / 360) =
        Real.cos (Real.pi / 360) * Real.cos (Real.pi / 360) := by
      have := Real.sin_sq_add_cos_sq (Real.pi / 360)
      nlinarith
    rw [hsq]
    exact Real.sqrt_mul_self hc
  have e : (1 - 0 : ℝ) * PI / 180.0 / 2 = Real.pi / 360 := by
    unfold PI
    norm_num
    ring
  simp only [calculateDistance, sub_self, zero_mul, zero_div, Real.sin_zero, mul_zero,
    Real.cos_zero, one_mul, zero_add, e, ha, hb]
  rw [atan2_sin_cos _ (by linarith) (by linarith)]
  ring

/-- Claim C10 as stated fails: over the real numbers `calculateDistance(0,0,0,1)`
is more than 50 m away from 111,320 m. -/
theorem calculateDistance_equator_degree_not_111320 :
    ¬ |calculateDistance 0 0 0 1 - 111320| ≤ 50 := by
  rw [equator_degree_value]
  have h3 := Real.pi_lt_d6
  intro h
  have h4 := (abs_le.mp h).1
  linarith

/-- Claim C10, amended: over the real numbers `calculateDistance(0,0,0,1)` is
`R * π / 180` with `R = 6,371,000 m`, which lies within 50 m (in fact within
1 m) of 111,195 m. -/
theorem calculateDistance_equator_degree_near_111195 :
    calculateDistance 0 0 0 1 = 6371000 * Real.pi / 180 ∧
    |calculateDistance 0 0 0 1 - 111195| ≤ 1 ∧
    |calculateDistance 0 0 0 1 - 111195| ≤ 50 := by
  have h1 : |calculateDistance 0 0 0 1 - 111195| ≤ 1 := by
    rw [equator_degree_value]
    have h3 := Real.pi_lt_d6
    have h4 := Real.pi_gt_d6
    rw [abs_le]
    constructor <;> linarith
  exact ⟨equator_degree_value, h1, h1.trans (by norm_num)⟩

/-! ## A zone on the equator -/

/-- The globals of `equatorState`: position `(0, 20)`, slot 0 the configured
zone centred on `(0, 20)`, the other slots still at their initial values. -/
theorem equatorState_fields :
    equatorState.currentLat = 0 ∧ equatorState.currentLng = 20 ∧
    equatorState.zones 0 = ⟨"zone1", 0, 20, 50⟩ ∧
    equatorState.zones 1 = ⟨"zone2", 0, 0, 50⟩ ∧
    equatorState.zones 2 = ⟨"zone3", 0, 0, 50⟩ ∧
    equatorState.currentZone = "none" := by
  simp [equatorState, run, step, updateZoneData, updateZoneLoop, readGPS, initState,
    Function.update]

/-- Claim C7 fails on the code: in `equatorState` the fix `(0, 20)` is valid,
slot 0 (`"zone1"`, centre `(0, 20)`, not `(0,0)`) is at distance 0 from the
position, within its radius of 50 m, and no zone precedes it; yet the loop of
`updateZoneStatus` skips it (its guard wants both centre coordinates non-zero)
and evaluates `"none"`, and a tick leaves `currentZone` at `"none"`. -/
theorem newZone_skips_equator_zone :
    ¬ (equatorState.currentLat = 0 ∧ equatorState.currentLng = 0) ∧
    ¬ ((equatorState.zones 0).centerLat = 0 ∧ (equatorState.zones 0).centerLng = 0) ∧
    specContains calculateDistance equatorState.currentLat equatorState.currentLng
      (equatorState.zones 0) ∧
    (equatorState.zones 0).name = "zone1" ∧
    newZone calculateDistance equatorState = "none" ∧
    (updateZoneStatus calculateDistance equatorState 1000).1.currentZone = "none" := by
  obtain ⟨h1, h2, h3, h4, h5, h6⟩ := equatorState_fields
  have hn : newZone calculateDistance equatorState = "none" := by
    simp [newZone, zoneLoop, h3, h4, h5]
  refine ⟨?_, ?_, ?_, ?_, hn, ?_⟩
  · simp [h1, h2]
  · simp [h3]
  · simp [specContains, h1, h2, h3, calculateDistance_self]
  · simp [h3]
  · rw [updateZoneStatus_cases calculateDistance equatorState 1000 (by simp [h1, h2]),
      if_pos (by rw [hn, h6])]
    exact h6

/-! ## The alarm state machine -/

section Alarm

variable {α : Type}

/-- An inactive alarm makes `handleAlarmSystem` return at once. -/
theorem handleAlarmSystem_inactive (s : State α) (now : Nat) (h : s.alarmActive = false) :
    handleAlarmSystem s now = (s, []) := by
  simp [handleAlarmSystem, h]

/-- With the alarm active, `handleAlarmSystem` by stored level and elapsed
time: the three `if`s of the source, merged. -/
theorem handleAlarmSystem_active (s : State α) (now : Nat) (h : s.alarmActive = true) :
    handleAlarmSystem s now =
      if s.alarmLevel = 0 then
        if 50000 ≤ ulongSub now s.alarmStartTime then
          ({ s with alarmLevel := 3 },
            [Event.alarm "level1" 1 "Cow outside for 5 seconds",
              Event.alarm "level2" 2 "Cow outside for 15 seconds",
              Event.alarm "level3" 3 "Cow outside for 50 seconds - CRITICAL"])
        else if 15000 ≤ ulongSub now s.alarmStartTime then
          ({ s with alarmLevel := 2 },
            [Event.alarm "level1" 1 "Cow outside for 5 seconds",
              Event.alarm "level2" 2 "Cow outside for 15 seconds"])
        else if 5000 ≤ ulongSub now s.alarmStartTime then
          ({ s with alarmLevel := 1 }, [Event.alarm "level1" 1 "Cow outside for 5 seconds"])
        else (s, [])
      else if s.alarmLevel = 1 then
        if 50000 ≤ ulongSub now s.alarmStartTime then
          ({ s with alarmLevel := 3 },
            [Event.alarm "level2" 2 "Cow outside for 15 seconds",
              Event.alarm "level3" 3 "Cow outside for 50 seconds - CRITICAL"])
        else if 15000 ≤ ulongSub now s.alarmStartTime then
          ({ s with alarmLevel := 2 }, [Event.alarm "level2" 2 "Cow outside for 15 seconds"])
        else (s, [])
      else if s.alarmLevel = 2 then
        if 50000 ≤ ulongSub now s.alarmStartTime then
          ({ s with alarmLevel := 3 },
            [Event.alarm "level3" 3 "Cow outside for 50 seconds - CRITICAL"])
        else (s, [])
      else (s, []) := by
  simp only [handleAlarmSystem, h, ALARM_LEVEL1_DELAY, ALARM_LEVEL2_DELAY, ALARM_LEVEL3_DELAY]
  generalize ulongSub now s.alarmStartTime = e
  by_cases h0 : s.alarmLevel = 0
  · by_cases c3 : 50000 ≤ e
    · have c2 : 15000 ≤ e := by omega
      have c1 : 5000 ≤ e := by omega
      simp [h, h0, c1, c2, c3]
    · by_cases c2 : 15000 ≤ e
      · have c1 : 5000 ≤ e := by omega
        simp [h, h0, c1, c2, c3]
      · by_cases c1 : 5000 ≤ e
        · simp [h, h0, c1, c2, c3]
        · simp [h, h0, c1, c2, c3]
  · by_cases h1 : s.alarmLevel = 1
    · by_cases c3 : 50000 ≤ e
      · have c2 : 15000 ≤ e := by omega
        simp [h, h1, c2, c3]
      · by_cases c2 : 15000 ≤ e
        · simp [h, h1, c2, c3]
        · simp [h, h1, c2, c3]
    · by_cases h2 : s.alarmLevel = 2
      · by_cases c3 : 50000 ≤ e
        · simp [h, h2, c3]
        · simp [h, h2, c3]
      · simp [h, h0, h1, h2]

/-- The `unsigned long` subtraction is the plain difference when the clock did
not wrap. -/
theorem ulongSub_eq (t t0 : Nat) (h : t0 ≤ t) (ht : t < 4294967296) : ulongSub t t0 = t - t0 := by
  unfold ulongSub
  omega

/-- One `handleAlarmSystem` tick at time `t` of an activation started at `t0`,
the previous tick (or the activation) having been at time `p`: the level
follows the elapsed time, and the message of a level is sent exactly when its
threshold lies between the two elapsed times. -/
theorem handleAlarmSystem_tick (s : State α) (t0 p t : Nat) (hact : s.alarmActive = true)
    (hstart : s.alarmStartTime = t0) (hp : t0 ≤ p) (hpt : p ≤ t) (ht : t < 4294967296)
    (hl : levelTracks s.alarmLevel (p - t0)) :
    levelTracks (handleAlarmSystem s t).1.alarmLevel (t - t0) ∧
    (handleAlarmSystem s t).1.alarmActive = true ∧
    (handleAlarmSystem s t).1.alarmStartTime = t0 ∧
    (Event.alarm "level1" 1 "Cow outside for 5 seconds" ∈ (handleAlarmSystem s t).2 ↔
      5000 ≤ t - t0 ∧ p - t0 < 5000) ∧
    (Event.alarm "level2" 2 "Cow outside for 15 seconds" ∈ (handleAlarmSystem s t).2 ↔
      15000 ≤ t - t0 ∧ p - t0 < 15000) ∧
    (Event.alarm "level3" 3 "Cow outside for 50 seconds - CRITICAL" ∈ (handleAlarmSystem s t).2 ↔
      50000 ≤ t - t0 ∧ p - t0 < 50000) ∧
    (handleAlarmSystem s t).2.Sublist
      [Event.alarm "level1" 1 "Cow outside for 5 seconds",
        Event.alarm "level2" 2 "Cow outside for 15 seconds",
        Event.alarm "level3" 3 "Cow outside for 50 seconds - CRITICAL"] := by
  rw [handleAlarmSystem_active s t hact, hstart, ulongSub_eq t t0 (hp.trans hpt) ht]
  unfold levelTracks at hl ⊢
  rcases hl with ⟨h, hm⟩ | ⟨h, hm⟩ | ⟨h, hm⟩ | ⟨h, hm⟩
  · simp only [h]
    split_ifs <;> simp [hact, hstart, h] <;> omega
  · simp only [h]
    split_ifs <;> simp [hact, hstart, h] <;> omega
  · simp only [h]
    split_ifs <;> simp [hact, hstart, h] <;> omega
  · simp only [h]
    split_ifs <;> simp [hact, hstart, h] <;> omega

/-- The alarm ticks of a list of steps followed by one more alarm tick. -/
theorem alarmTimes_append_tick (pre : List (Action α)) (t : Nat) :
    alarmTimes (pre ++ [Action.alarmTick t]) = alarmTimes pre ++ [t] := by
  induction pre with
  | nil => rfl
  | cons a rest ih => cases a <;> simp [alarmTimes, ih]

end Alarm

section Reach

variable {α : Type} [LinearOrder α] [Zero α]

/-- Every step keeps `AlarmInv`. -/
theorem step_preserves_inv (dist : α → α → α → α → α) (s : State α) (a : Action α)
    (h : AlarmInv s) : AlarmInv (step dist s a).1 := by
  obtain ⟨h1, h2, h3⟩ := h
  cases a with
  | gps lat lng => exact ⟨h1, h2, h3⟩
  | config fz =>
    cases fz with
    | none => exact ⟨h1, h2, h3⟩
    | some arr => exact ⟨h1, h2, h3⟩
  | zoneTick now =>
    simp only [step]
    by_cases hfix : s.currentLat = 0 ∧ s.currentLng = 0
    · rw [updateZoneStatus_skip dist s now hfix]
      exact ⟨h1, h2, h3⟩
    · rw [updateZoneStatus_cases dist s now hfix]
      unfold AlarmInv
      by_cases c1 : newZone dist s = s.currentZone
      · rw [if_pos c1]
        exact ⟨h1, h2, h3⟩
      · rw [if_neg c1]
        by_cases c2 : newZone dist s = "none"
        · rw [if_pos c2]
          cases hact : s.alarmActive with
          | true =>
            exact absurd (c2.trans (h1 hact).symm) c1
          | false => simp
        · rw [if_neg c2]
          by_cases c3 : s.currentZone = "none"
          · rw [if_pos c3]
            cases hact : s.alarmActive with
            | true => simp
            | false =>
              simp only [Bool.false_eq_true, if_false]
              exact ⟨fun hh => by simp [hact] at hh, fun _ => h2 hact, h3⟩
          · rw [if_neg c3]
            exact ⟨fun hh => absurd (h1 hh) c3, h2, h3⟩
  | alarmTick now =>
    simp only [step]
    cases hact : s.alarmActive with
    | false =>
      rw [handleAlarmSystem_inactive s now hact]
      exact ⟨h1, h2, h3⟩
    | true =>
      rw [handleAlarmSystem_active s now hact]
      unfold AlarmInv
      split_ifs <;> simp_all

/-- Every step: the level does not go down while the alarm stays active, and
`alarmStartTime` changes only when the alarm goes from inactive to active. -/
theorem step_alarm_frame (dist : α → α → α → α → α) (s : State α) (a : Action α) :
    (s.alarmActive = true → (step dist s a).1.alarmActive = true →
      s.alarmLevel ≤ (step dist s a).1.alarmLevel) ∧
    ((step dist s a).1.alarmStartTime ≠ s.alarmStartTime →
      s.alarmActive = false ∧ (step dist s a).1.alarmActive = true) := by
  cases a with
  | gps lat lng => exact ⟨fun _ _ => le_refl _, fun h => absurd rfl h⟩
  | config fz =>
    cases fz with
    | none => exact ⟨fun _ _ => le_refl _, fun h => absurd rfl h⟩
    | some arr => exact ⟨fun _ _ => le_refl _, fun h => absurd rfl h⟩
  | zoneTick now =>
    simp only [step]
    by_cases hfix : s.currentLat = 0 ∧ s.currentLng = 0
    · rw [updateZoneStatus_skip dist s now hfix]
      exact ⟨fun _ _ => le_refl _, fun h => absurd rfl h⟩
    · rw [updateZoneStatus_cases dist s now hfix]
      cases hact : s.alarmActive <;> split_ifs <;> simp_all
  | alarmTick now =>
    simp only [step]
    cases hact : s.alarmActive with
    | false =>
      rw [handleAlarmSystem_inactive s now hact]
      exact ⟨fun _ _ => le_refl _, fun h => absurd rfl h⟩
    | true =>
      rw [handleAlarmSystem_active s now hact]
      split_ifs <;> simp_all

/-- A step other than `handleAlarmSystem` that starts and ends with the alarm
active keeps `alarmLevel` and `alarmStartTime`. -/
theorem step_alarm_same (dist : α → α → α → α → α) (s : State α) (a : Action α)
    (hna : ∀ now, a ≠ Action.alarmTick now)
    (h1 : s.alarmActive = true) (h2 : (step dist s a).1.alarmActive = true) :
    (step dist s a).1.alarmLevel = s.alarmLevel ∧
    (step dist s a).1.alarmStartTime = s.alarmStartTime := by
  cases a with
  | gps lat lng => exact ⟨rfl, rfl⟩
  | config fz =>
    cases fz with
    | none => exact ⟨rfl, rfl⟩
    | some arr => exact ⟨rfl, rfl⟩
  | zoneTick now =>
    simp only [step] at h2 ⊢
    by_cases hfix : s.currentLat = 0 ∧ s.currentLng = 0
    · rw [updateZoneStatus_skip dist s now hfix]
      exact ⟨rfl, rfl⟩
    · rw [updateZoneStatus_cases dist s now hfix] at h2 ⊢
      split_ifs at h2 ⊢ <;> simp_all
  | alarmTick now => exact absurd rfl (hna now)

/-- Reachable states satisfy `AlarmInv`. -/
theorem reachable_inv (dist : α → α → α → α → α) (r50 : α) (s : State α)
    (h : Reachable dist r50 s) : AlarmInv s := by
  induction h with
  | init => exact ⟨fun hh => rfl, fun _ => rfl, Or.inl rfl⟩
  | next s a _ ih => exact step_preserves_inv dist s a ih

/-- Running steps from a reachable state gives a reachable state. -/
theorem reachable_run (dist : α → α → α → α → α) (r50 : α) (acts : List (Action α)) :
    ∀ s : State α, Reachable dist r50 s → Reachable dist r50 (run dist s acts) := by
  induction acts with
  | nil => intro s h; exact h
  | cons a rest ih => intro s h; exact ih _ (Reachable.next s a h)

/-- The escalation messages of the tick at time `t` after the steps `pre`, from
any state of an activation started at `t0` whose level follows the elapsed time
`p - t0` of the previous tick. -/
theorem escalation_from (dist : α → α → α → α → α) (t0 t : Nat) :
    ∀ (pre : List (Action α)) (s : State α) (p : Nat),
      s.alarmActive = true → s.alarmStartTime = t0 → levelTracks s.alarmLevel (p - t0) →
      t0 ≤ p →
      (∀ k, (run dist s (pre.take k)).alarmActive = true) →
      (alarmTimes pre ++ [t]).Pairwise (· ≤ ·) →
      (∀ u ∈ alarmTimes pre ++ [t], p ≤ u ∧ u < 4294967296) →
      (Event.alarm "level1" 1 "Cow outside for 5 seconds" ∈
          (handleAlarmSystem (run dist s pre) t).2 ↔
        5000 ≤ t - t0 ∧ p - t0 < 5000 ∧ ∀ u ∈ alarmTimes pre, u - t0 < 5000) ∧
      (Event.alarm "level2" 2 "Cow outside for 15 seconds" ∈
          (handleAlarmSystem (run dist s pre) t).2 ↔
        15000 ≤ t - t0 ∧ p - t0 < 15000 ∧ ∀ u ∈ alarmTimes pre, u - t0 < 15000) ∧
      (Event.alarm "level3" 3 "Cow outside for 50 seconds - CRITICAL" ∈
          (handleAlarmSystem (run dist s pre) t).2 ↔
        50000 ≤ t - t0 ∧ p - t0 < 50000 ∧ ∀ u ∈ alarmTimes pre, u - t0 < 50000) ∧
      (handleAlarmSystem (run dist s pre) t).2.Sublist
        [Event.alarm "level1" 1 "Cow outside for 5 seconds",
          Event.alarm "level2" 2 "Cow outside for 15 seconds",
          Event.alarm "level3" 3 "Cow outside for 50 seconds - CRITICAL"] := by
  intro pre
  induction pre with
  | nil =>
    intro s p hact hstart hl hp _ _ hr
    have ht := hr t (by simp)
    have h := handleAlarmSystem_tick s t0 p t hact hstart hp ht.1 ht.2 hl
    simpa [run, alarmTimes] using h.2.2.2
  | cons a rest ih =>
    intro s p hact hstart hl hp hstay hs hr
    have hact1 : (step dist s a).1.alarmActive = true := by
      have := hstay 1
      simpa [run] using this
    have hstay1 : ∀ k, (run dist (step dist s a).1 (rest.take k)).alarmActive = true := by
      intro k
      have := hstay (k + 1)
      simpa [run] using this
    by_cases hk : ∃ u, a = Action.alarmTick u
    · obtain ⟨u, rfl⟩ := hk
      simp only [alarmTimes, List.cons_append, List.pairwise_cons] at hs hr
      have hu := hr u (by simp)
      have hT := handleAlarmSystem_tick s t0 p u hact hstart hp hu.1 hu.2 hl
      have hrest := ih (step dist s (Action.alarmTick u)).1 u hact1
        (by simpa [step] using hT.2.2.1) (by simpa [step] using hT.1) (hp.trans hu.1)
        hstay1 hs.2
        (fun v hv => ⟨hs.1 v hv, (hr v (List.mem_cons_of_mem _ hv)).2⟩)
      simp only [run, alarmTimes, List.forall_mem_cons]
      refine ⟨hrest.1.trans ?_, hrest.2.1.trans ?_, hrest.2.2.1.trans ?_, hrest.2.2.2⟩ <;>
        constructor <;> rintro ⟨h1, h2, h3⟩ <;> refine ⟨h1, ?_, ?_⟩ <;>
        first | omega | assumption | exact ⟨h2, h3⟩ | exact h3.1 | exact h3.2
    · have hna : ∀ now, a ≠ Action.alarmTick now := fun now h => hk ⟨now, h⟩
      have hsame := step_alarm_same dist s a hna hact hact1
      have hT : alarmTimes (a :: rest) = alarmTimes rest := by
        cases a with
        | alarmTick now => exact absurd rfl (hna now)
        | gps _ _ => rfl
        | zoneTick _ => rfl
        | config _ => rfl
      rw [hT] at hs hr ⊢
      exact ih (step dist s a).1 p hact1 (hsame.2.trans hstart) (by rw [hsame.1]; exact hl) hp
        hstay1 hs hr

/-- Claim C2: in a state reachable from startup, a tick of `updateZoneStatus`
with a valid fix activates the alarm (`alarmActive` goes from false to true,
`alarmLevel` is 0, `alarmStartTime` is the current time, a `"breach"` alarm of
level 1 is sent) if and only if the tick changes `currentZone` from a value
other than `"none"` to `"none"`; without such a change no `"breach"` alarm is
sent and the alarm is not switched on; and a tick from one zone directly to
another zone keeps `alarmActive`, `alarmLevel`, `alarmStartTime` and sends no
alarm. -/
theorem alarm_activation_iff (dist : α → α → α → α → α) (r50 : α) (s : State α) (now : Nat)
    (hr : Reachable dist r50 s) (hfix : ¬ (s.currentLat = 0 ∧ s.currentLng = 0)) :
    (alarmActivated s (updateZoneStatus dist s now).1 (updateZoneStatus dist s now).2 now ↔
      (s.currentZone ≠ "none" ∧ (updateZoneStatus dist s now).1.currentZone = "none")) ∧
    (¬ (s.currentZone ≠ "none" ∧ (updateZoneStatus dist s now).1.currentZone = "none") →
      (∀ l m, Event.alarm "breach" l m ∉ (updateZoneStatus dist s now).2) ∧
      ((updateZoneStatus dist s now).1.alarmActive = true → s.alarmActive = true)) ∧
    (s.currentZone ≠ "none" → (updateZoneStatus dist s now).1.currentZone ≠ "none" →
      (updateZoneStatus dist s now).1.currentZone ≠ s.currentZone →
      (updateZoneStatus dist s now).1.alarmActive = s.alarmActive ∧
      (updateZoneStatus dist s now).1.alarmLevel = s.alarmLevel ∧
      (updateZoneStatus dist s now).1.alarmStartTime = s.alarmStartTime ∧
      (updateZoneStatus dist s now).2.filter Event.isAlarm = []) := by
  obtain ⟨h1, -, -⟩ := reachable_inv dist r50 s hr
  rw [updateZoneStatus_cases dist s now hfix]
  unfold alarmActivated
  by_cases c1 : newZone dist s = s.currentZone
  · simp only [if_pos c1]
    simp
  · simp only [if_neg c1]
    by_cases c2 : newZone dist s = "none"
    · simp only [if_pos c2]
      have c3 : s.currentZone ≠ "none" := fun hh => c1 (c2.trans hh.symm)
      have hact : s.alarmActive = false := by
        cases hh : s.alarmActive with
        | true => exact absurd (h1 hh) c3
        | false => rfl
      simp [hact, c3]
    · simp only [if_neg c2]
      by_cases c3 : s.currentZone = "none"
      · simp only [if_pos c3]
        cases hact : s.alarmActive <;> simp [c3, c2, Event.isAlarm]
      · simp only [if_neg c3]
        simp [c3, c2, Event.isAlarm, Event.isZoneChange]

/-- Claim C3, amended: a tick of `updateZoneStatus` with a valid fix deactivates
the alarm (`alarmActive` false, `alarmLevel` 0, a `"return"` alarm of level 0
sent) if and only if its transition goes from `"none"` to a zone and the alarm
was active before the tick; a transition from `"none"` to a zone with the alarm
inactive keeps the alarm fields and sends no alarm. -/
theorem alarm_deactivation_iff (dist : α → α → α → α → α) (s : State α) (now : Nat)
    (hfix : ¬ (s.currentLat = 0 ∧ s.currentLng = 0)) :
    (alarmDeactivated (updateZoneStatus dist s now).1 (updateZoneStatus dist s now).2 ↔
      ((s.currentZone = "none" ∧ (updateZoneStatus dist s now).1.currentZone ≠ "none") ∧
        s.alarmActive = true)) ∧
    ((s.currentZone = "none" ∧ (updateZoneStatus dist s now).1.currentZone ≠ "none") →
      s.alarmActive = false →
      (updateZoneStatus dist s now).1.alarmActive = false ∧
      (updateZoneStatus dist s now).1.alarmLevel = s.alarmLevel ∧
      (updateZoneStatus dist s now).1.alarmStartTime = s.alarmStartTime ∧
      (updateZoneStatus dist s now).2.filter Event.isAlarm = []) := by
  rw [updateZoneStatus_cases dist s now hfix]
  unfold alarmDeactivated
  by_cases c1 : newZone dist s = s.currentZone
  · simp only [if_pos c1]
    simp
  · simp only [if_neg c1]
    by_cases c2 : newZone dist s = "none"
    · simp only [if_pos c2]
      cases hact : s.alarmActive <;> simp [Event.isAlarm]
    · simp only [if_neg c2]
      by_cases c3 : s.currentZone = "none"
      · simp only [if_pos c3]
        cases hact : s.alarmActive <;> simp [c3, c2, Event.isAlarm]
      · simp only [if_neg c3]
        simp [c3, c2, Event.isAlarm]

/-- Claim C8: in every state reachable from startup `alarmLevel` is one of 0,
1, 2, 3 and an inactive alarm has level 0; every step that starts and ends with
the alarm active does not decrease `alarmLevel`; and a step that changes
`alarmStartTime` turns `alarmActive` from false to true. -/
theorem alarm_invariants (dist : α → α → α → α → α) (r50 : α) (s : State α)
    (hr : Reachable dist r50 s) :
    (s.alarmLevel = 0 ∨ s.alarmLevel = 1 ∨ s.alarmLevel = 2 ∨ s.alarmLevel = 3) ∧
    (s.alarmActive = false → s.alarmLevel = 0) ∧
    (∀ a : Action α, s.alarmActive = true → (step dist s a).1.alarmActive = true →
      s.alarmLevel ≤ (step dist s a).1.alarmLevel) ∧
    (∀ a : Action α, (step dist s a).1.alarmStartTime ≠ s.alarmStartTime →
      s.alarmActive = false ∧ (step dist s a).1.alarmActive = true) := by
  obtain ⟨h1, h2, h3⟩ := reachable_inv dist r50 s hr
  refine ⟨h3, h2, ?_, ?_⟩
  · intro a ha ha'
    exact (step_alarm_frame dist s a).1 ha ha'
  · intro a hne
    exact (step_alarm_frame dist s a).2 hne

/-- Claim C4: take an activation started at `t0` (alarm active, level 0), steps
`pre` during which the alarm stays active, and a `handleAlarmSystem` tick at
time `t` after them, the alarm ticks being at non-decreasing times from `t0` on
without a wrap of the 32-bit clock.  Then the tick sends the message of level
1, 2, 3 exactly when `t - t0` has reached 5000, 15000, 50000 and no earlier
alarm tick of the activation had; and what it sends is a sublist of
`[level1, level2, level3]`, so the pending levels come in ascending order,
each at most once. -/
theorem escalation_first_tick (dist : α → α → α → α → α) (s0 : State α) (t0 : Nat)
    (pre : List (Action α)) (t : Nat)
    (hact : s0.alarmActive = true) (hlvl : s0.alarmLevel = 0) (hstart : s0.alarmStartTime = t0)
    (hstay : ∀ k, (run dist s0 (pre.take k)).alarmActive = true)
    (hsorted : (alarmTimes (pre ++ [Action.alarmTick t])).Pairwise (· ≤ ·))
    (hrange : ∀ u ∈ alarmTimes (pre ++ [Action.alarmTick t]), t0 ≤ u ∧ u < 4294967296) :
    (Event.alarm "level1" 1 "Cow outside for 5 seconds" ∈
        (handleAlarmSystem (run dist s0 pre) t).2 ↔
      5000 ≤ t - t0 ∧ ∀ u ∈ alarmTimes pre, u - t0 < 5000) ∧
    (Event.alarm "level2" 2 "Cow outside for 15 seconds" ∈
        (handleAlarmSystem (run dist s0 pre) t).2 ↔
      15000 ≤ t - t0 ∧ ∀ u ∈ alarmTimes pre, u - t0 < 15000) ∧
    (Event.alarm "level3" 3 "Cow outside for 50 seconds - CRITICAL" ∈
        (handleAlarmSystem (run dist s0 pre) t).2 ↔
      50000 ≤ t - t0 ∧ ∀ u ∈ alarmTimes pre, u - t0 < 50000) ∧
    (handleAlarmSystem (run dist s0 pre) t).2.Sublist
      [Event.alarm "level1" 1 "Cow outside for 5 seconds",
        Event.alarm "level2" 2 "Cow outside for 15 seconds",
        Event.alarm "level3" 3 "Cow outside for 50 seconds - CRITICAL"] := by
  rw [alarmTimes_append_tick] at hsorted hrange
  have h := escalation_from dist t0 t pre s0 t0 hact hstart
    (by rw [hlvl]; exact Or.inl ⟨rfl, by omega⟩) (le_refl _) hstay hsorted hrange
  simpa using h

end Reach

/-! ## Runs on concrete data -/

/-- Claim C2, run on `leavingState` (reached from startup, recorded in
`"zone1"`, fix at `(10, 500)`): the tick at time 2000 activates the alarm. -/
theorem alarm_activation_iff_witness :
    Reachable gridDist 50 leavingState ∧
    ¬ (leavingState.currentLat = 0 ∧ leavingState.currentLng = 0) ∧
    alarmActivated leavingState (updateZoneStatus gridDist leavingState 2000).1
      (updateZoneStatus gridDist leavingState 2000).2 2000 :=
  ⟨reachable_run gridDist 50 breachSetup _ Reachable.init, by decide,
    (alarm_activation_iff gridDist 50 leavingState 2000
      (reachable_run gridDist 50 breachSetup _ Reachable.init) (by decide)).1.mpr
      (by decide)⟩

/-- Claim C3 as stated fails: in `firstFixState` (reached from startup by a
configuration message and a first fix inside `"zone1"`) the tick has a valid
fix and its transition goes from `"none"` to `"zone1"`, yet the alarm is not
deactivated in the sense of the claim: the only message sent is the zone
change, no `"return"` alarm. -/
theorem first_fix_sends_no_return :
    Reachable calculateDistance 50 firstFixState ∧
    ¬ (firstFixState.currentLat = 0 ∧ firstFixState.currentLng = 0) ∧
    (firstFixState.currentZone = "none" ∧
      (updateZoneStatus calculateDistance firstFixState 1000).1.currentZone ≠ "none") ∧
    (updateZoneStatus calculateDistance firstFixState 1000).2 =
      [Event.zoneChange "none" "zone1"] ∧
    ¬ alarmDeactivated (updateZoneStatus calculateDistance firstFixState 1000).1
      (updateZoneStatus calculateDistance firstFixState 1000).2 := by
  have hf : firstFixState.currentLat = 10 ∧ firstFixState.currentLng = 20 ∧
      firstFixState.zones 0 = ⟨"zone1", 10, 20, 50⟩ ∧
      firstFixState.currentZone = "none" ∧ firstFixState.alarmActive = false := by
    simp [firstFixState, run, step, updateZoneData, updateZoneLoop, readGPS, initState,
      Function.update]
  obtain ⟨h1, h2, h3, h4, h5⟩ := hf
  have hfix : ¬ (firstFixState.currentLat = 0 ∧ firstFixState.currentLng = 0) := by
    simp [h1, h2]
  have hn : newZone calculateDistance firstFixState = "zone1" := by
    unfold newZone
    rw [zoneLoop_cons_hit calculateDistance _ _ _ 0 _ _
      (by simp [h1, h2, h3, calculateDistance_self]), h3]
  have hu : updateZoneStatus calculateDistance firstFixState 1000 =
      ({ firstFixState with previousZone := "none", currentZone := "zone1",
                            insideFence := true },
        [Event.zoneChange "none" "zone1"]) := by
    rw [updateZoneStatus_cases calculateDistance firstFixState 1000 hfix, hn, h4, h5]
    simp [h5]
  refine ⟨reachable_run calculateDistance 50 _ _ Reachable.init, hfix, ⟨h4, ?_⟩, ?_, ?_⟩
  · rw [hu]
    decide
  · rw [hu]
  · rw [hu]
    simp [alarmDeactivated]

/-- Claim C3, amended, run on `returningState` (alarm active, fix back at the
centre of `"zone1"`): the tick deactivates the alarm. -/
theorem alarm_deactivation_iff_witness :
    ¬ (returningState.currentLat = 0 ∧ returningState.currentLng = 0) ∧
    returningState.alarmActive = true ∧
    alarmDeactivated (updateZoneStatus gridDist returningState 9000).1
      (updateZoneStatus gridDist returningState 9000).2 :=
  ⟨by decide, by decide,
    (alarm_deactivation_iff gridDist returningState 9000 (by decide)).1.mpr
      (by decide)⟩

/-- Claim C8, run on `outsideState` (reached from startup, alarm active). -/
theorem alarm_invariants_witness :
    Reachable gridDist 50 outsideState ∧
    outsideState.alarmActive = true ∧
    (outsideState.alarmLevel = 0 ∨ outsideState.alarmLevel = 1 ∨
      outsideState.alarmLevel = 2 ∨ outsideState.alarmLevel = 3) ∧
    (∀ a : Action ℤ, (step gridDist outsideState a).1.alarmActive = true →
      outsideState.alarmLevel ≤ (step gridDist outsideState a).1.alarmLevel) :=
  have hr : Reachable gridDist 50 outsideState :=
    reachable_run gridDist 50 (breachSetup ++ [Action.zoneTick 2000]) _ Reachable.init
  have ha : outsideState.alarmActive = true := by decide
  ⟨hr, ha, (alarm_invariants gridDist 50 outsideState hr).1,
    fun a => (alarm_invariants gridDist 50 outsideState hr).2.2.1 a ha⟩

/-- Claim C4, run on `escalationStart` (activation at 2000) with alarm ticks at
3000 and 8000 and then at 60000: the tick at 8000 has reached the first
threshold, so the tick at 60000 sends `level2` and `level3` and not `level1`. -/
theorem escalation_first_tick_witness :
    escalationStart.alarmActive = true ∧ escalationStart.alarmLevel = 0 ∧
    escalationStart.alarmStartTime = 2000 ∧
    (∀ k, (run gridDist escalationStart (escalationRun.take k)).alarmActive = true) ∧
    Event.alarm "level1" 1 "Cow outside for 5 seconds" ∉
      (handleAlarmSystem (run gridDist escalationStart escalationRun) 60000).2 ∧
    Event.alarm "level2" 2 "Cow outside for 15 seconds" ∈
      (handleAlarmSystem (run gridDist escalationStart escalationRun) 60000).2 ∧
    Event.alarm "level3" 3 "Cow outside for 50 seconds - CRITICAL" ∈
      (handleAlarmSystem (run gridDist escalationStart escalationRun) 60000).2 :=
  have hstay : ∀ k, (run gridDist escalationStart (escalationRun.take k)).alarmActive = true := by
    intro k
    rcases k with _ | _ | _ | k <;>
      simp [run, step, escalationRun, escalationStart, handleAlarmSystem, readGPS, ulongSub,
        ALARM_LEVEL1_DELAY, ALARM_LEVEL2_DELAY, ALARM_LEVEL3_DELAY]
  have h := escalation_first_tick gridDist escalationStart 2000 escalationRun 60000 rfl rfl rfl
    hstay (by simp [escalationRun, alarmTimes]) (by simp [escalationRun, alarmTimes])
  ⟨rfl, rfl, rfl, hstay,
    fun hm => by
      have h1 := (h.1.mp hm).2 8000 (by simp [escalationRun, alarmTimes])
      omega,
    h.2.1.mpr ⟨by omega, by simp [escalationRun, alarmTimes]⟩,
    h.2.2.1.mpr ⟨by omega, by simp [escalationRun, alarmTimes]⟩⟩

end SafeZone
